import Mathlib

/-!
Verification of the note/file-sharing backend.

The repository persists note-metadata records in a flat JSON file and
exposes list/upload/delete HTTP handlers over that store plus an external
blob store (Cloudinary).  We shallowly embed:

* `src/api/store.js` — namespace `Store` (the primary store variant,
  whose `getNotes` sorts by `createdAt` descending);
* `src/unnamed/part_000` — namespace `Part0` (the second store variant,
  insertion order, unguarded writes in `addNote`/`deleteNote`);
* `src/unnamed/part_001` — namespaces `ServerV1` (first server, inline
  JSON storage, permissive delete) and `ServerV2` (second server, uses
  `Store`, strict delete).

The backing file is modelled by `FileState`: it can be missing,
unreadable, readable-but-unparseable, or a valid JSON array of records.
`fs.readFileSync`+`JSON.parse` wrapped in try/catch becomes a total
function returning `[]` on every non-valid state.  `fs.writeFileSync`
takes an explicit `writeOk` flag: on success the file holds the written
array, on a caught failure the previous state survives.  Store
operations return a `StoreEff`: the returned value, the resulting file
state, and the list of write attempts (used for frame/effect claims).
Blob-store calls are recorded in the handler outcomes as explicit call
lists, with success or failure of the remote call an input parameter.
-/

/-- A Note Record as constructed by the upload handlers.  `createdAt` is
the millisecond timestamp (`new Date()` / ISO string, compared via
`new Date(x)` in the sort comparator). -/
structure Note where
  id : String
  title : String
  subject : String
  desc : String
  type : String
  fileName : String
  fileUrl : String
  publicId : String
  fileType : String
  fileSize : Nat
  createdAt : Nat
deriving DecidableEq, Repr

/-- State of the backing JSON file. -/
inductive FileState where
  | missing
  | unreadable
  | unparseable
  | valid (notes : List Note)
deriving DecidableEq, Repr

/-- Result of one store operation: returned value, resulting file state,
and the contents of each write attempt made (in order). -/
structure StoreEff (α : Type) where
  ret : α
  state : FileState
  writes : List (List Note)

namespace Store

/-- readFile of api/store.js: `fs.readFileSync` + `JSON.parse` in
try/catch; any error is logged and yields `[]`. -/
def readFile (s : FileState) : List Note :=
  match s with
  | FileState.valid notes => notes
  | _ => []

/-- writeFile of api/store.js: `fs.writeFileSync` in try/catch; on a
caught error the previous file state survives. -/
def writeFile (notes : List Note) (writeOk : Bool) (s : FileState) : FileState :=
  if writeOk then FileState.valid notes else s

/-- Module-init bootstrap of api/store.js: if the file does not exist,
write an empty array. -/
def bootstrap (s : FileState) : FileState :=
  match s with
  | FileState.missing => FileState.valid []
  | s => s

/-- The sort in getNotes: `notes.sort((a, b) => new Date(b.createdAt) -
new Date(a.createdAt))`, i.e. a stable sort with comparator "keep `a`
before `b` iff `b.createdAt ≤ a.createdAt`" (descending). -/
def sortByCreatedAtDesc (notes : List Note) : List Note :=
  notes.mergeSort (fun a b => decide (b.createdAt ≤ a.createdAt))

/-- getNotes of api/store.js: read, sort by createdAt descending. -/
def getNotes (s : FileState) : StoreEff (List Note) :=
  ⟨sortByCreatedAtDesc (readFile s), s, []⟩

/-- addNote of api/store.js: read, push, write, return the note. -/
def addNote (note : Note) (writeOk : Bool) (s : FileState) : StoreEff Note :=
  let notes := readFile s
  let notes2 := notes ++ [note]
  ⟨note, writeFile notes2 writeOk s, [notes2]⟩

/-- deleteNote of api/store.js: read, filter out matching ids, write. -/
def deleteNote (id : String) (writeOk : Bool) (s : FileState) : StoreEff Unit :=
  let notes := readFile s
  let newNotes := notes.filter (fun n => decide (n.id ≠ id))
  ⟨(), writeFile newNotes writeOk s, [newNotes]⟩

/-- findNote of api/store.js: read, first record with matching id. -/
def findNote (id : String) (s : FileState) : StoreEff (Option Note) :=
  ⟨(readFile s).find? (fun n => decide (n.id = id)), s, []⟩

end Store

namespace Part0

/-- Module-init bootstrap of part_000: if the file does not exist,
write an empty array. -/
def bootstrap (s : FileState) : FileState :=
  match s with
  | FileState.missing => FileState.valid []
  | s => s

/-- getNotes of part_000: `fs.readFileSync` + `JSON.parse` in try/catch,
returning `[]` on any error; no sorting. -/
def getNotes (s : FileState) : StoreEff (List Note) :=
  match s with
  | FileState.valid notes => ⟨notes, s, []⟩
  | _ => ⟨[], s, []⟩

/-- addNote of part_000: getNotes, push, `fs.writeFileSync` with NO
try/catch, so a write failure escapes as an exception (`Except.error`). -/
def addNote (note : Note) (writeOk : Bool) (s : FileState) :
    Except Unit (StoreEff Unit) :=
  let notes := (getNotes s).ret ++ [note]
  if writeOk then Except.ok ⟨(), FileState.valid notes, [notes]⟩
  else Except.error ()

/-- deleteNote of part_000: getNotes, filter, unguarded write. -/
def deleteNote (id : String) (writeOk : Bool) (s : FileState) :
    Except Unit (StoreEff Unit) :=
  let notes := (getNotes s).ret.filter (fun n => decide (n.id ≠ id))
  if writeOk then Except.ok ⟨(), FileState.valid notes, [notes]⟩
  else Except.error ()

/-- findNote of part_000: getNotes, first record with matching id. -/
def findNote (id : String) (s : FileState) : StoreEff (Option Note) :=
  ⟨(getNotes s).ret.find? (fun n => decide (n.id = id)), s, []⟩

end Part0

/-- The uploaded file part as multer presents it (`req.file`). -/
structure FilePart where
  originalname : String
  mimetype : String
  size : Nat
deriving DecidableEq, Repr

/-- Body fields of a POST /api/upload request; a missing field is `none`,
a present field carries its string value. -/
structure UploadReq where
  file : Option FilePart
  title : Option String
  subject : Option String
  desc : Option String
  type : Option String
deriving DecidableEq, Repr

/-- JS `x || d` for a body string field: missing or empty yields the
default. -/
def jsOr (o : Option String) (d : String) : String :=
  match o with
  | none => d
  | some s => if s = "" then d else s

/-- JS `x?.trim() || ''` for an optional body string field. -/
def jsTrimOrEmpty (o : Option String) : String :=
  match o with
  | none => ""
  | some s => s.trim

/-- `type === 'image' ? 'image' : 'raw'` computed from the request field
at upload time (both server variants). -/
def uploadResourceType (ty : Option String) : String :=
  if ty = some "image" then "image" else "raw"

/-- `note.type === 'image' ? 'image' : 'raw'` computed from the stored
record at delete time (both server variants). -/
def destroyResourceType (noteType : String) : String :=
  if noteType = "image" then "image" else "raw"

/-- Successful result of a blob-store upload (Cloudinary). -/
structure BlobOk where
  secure_url : String
  public_id : String
deriving DecidableEq, Repr

/-- One blob-store upload call, as issued by an upload handler. -/
structure BlobUploadCall where
  resource_type : String
  folder : String
  public_id : Option String
deriving DecidableEq, Repr

/-- Outcome of a POST /api/upload request: HTTP status, blob-store upload
calls issued, resulting file state, created record (if any). -/
structure UploadOutcome where
  status : Nat
  uploadCalls : List BlobUploadCall
  state : FileState
  body : Option Note
deriving DecidableEq, Repr

/-- Outcome of a DELETE /api/data/:id request: HTTP status, blob-store
destroy calls issued as (publicId, resource_type) pairs, resulting file
state. -/
structure DeleteOutcome where
  status : Nat
  destroyCalls : List (String × String)
  state : FileState
deriving DecidableEq, Repr

namespace ServerV1

/-- Inline getNotes of the first server in part_001: missing file yields
`[]` (checked via existsSync), read+parse errors are caught to `[]`. -/
def getNotes (s : FileState) : List Note :=
  match s with
  | FileState.valid notes => notes
  | _ => []

/-- Inline saveNotes of the first server: `fs.writeFileSync` in
try/catch; a caught failure leaves the previous state. -/
def saveNotes (notes : List Note) (writeOk : Bool) (s : FileState) : FileState :=
  if writeOk then FileState.valid notes else s

/-- POST /api/upload of the first server.  `!req.file || !title` rejects
with 400 before any blob call; otherwise the blob upload is issued
(resource type from the request `type`, folder `campusnotes/<type||notes>`,
caller-assigned public id `<now>_<basename>`); on blob failure the catch
answers 500; on success the record is built, appended and saved (save
errors are swallowed), and the handler answers 201. -/
def uploadHandler (req : UploadReq) (blob : Option BlobOk) (now : Nat)
    (writeOk : Bool) (s : FileState) : UploadOutcome :=
  match req.file, req.title with
  | some f, some t =>
    if t = "" then ⟨400, [], s, none⟩
    else
      let call : BlobUploadCall :=
        ⟨uploadResourceType req.type, "campusnotes/" ++ jsOr req.type "notes",
          some (toString now ++ "_" ++ (f.originalname.splitOn ".").headD "")⟩
      match blob with
      | none => ⟨500, [call], s, none⟩
      | some r =>
        let note : Note :=
          { id := toString now, title := t.trim,
            subject := jsTrimOrEmpty req.subject,
            desc := jsTrimOrEmpty req.desc,
            type := jsOr req.type "note",
            fileName := f.originalname,
            fileUrl := r.secure_url, publicId := r.public_id,
            fileType := f.mimetype, fileSize := f.size, createdAt := now }
        let notes := getNotes s ++ [note]
        ⟨201, [call], saveNotes notes writeOk s, some note⟩
  | _, _ => ⟨400, [], s, none⟩

/-- DELETE /api/data/:id of the first server: 404 when the id is absent;
otherwise the blob destroy is attempted only when the record has a truthy
publicId, any destroy error is caught and ignored, and the record is
removed and the handler answers 200 regardless. -/
def deleteHandler (id : String) (destroyOk : Bool) (writeOk : Bool)
    (s : FileState) : DeleteOutcome :=
  let notes := getNotes s
  match notes.find? (fun n => decide (n.id = id)) with
  | none => ⟨404, [], s⟩
  | some note =>
    let calls :=
      if note.publicId = "" then []
      else [(note.publicId, destroyResourceType note.type)]
    let updatedNotes := notes.filter (fun n => decide (n.id ≠ id))
    ⟨200, calls, saveNotes updatedNotes writeOk s⟩

end ServerV1

namespace ServerV2

/-- POST /api/upload of the second server: same validation; folder
default is `files` and the blob store assigns the public id; the record
is persisted through `Store.addNote` (whose write errors are swallowed),
then 201. -/
def uploadHandler (req : UploadReq) (blob : Option BlobOk) (now : Nat)
    (writeOk : Bool) (s : FileState) : UploadOutcome :=
  match req.file, req.title with
  | some f, some t =>
    if t = "" then ⟨400, [], s, none⟩
    else
      let call : BlobUploadCall :=
        ⟨uploadResourceType req.type, "campusnotes/" ++ jsOr req.type "files", none⟩
      match blob with
      | none => ⟨500, [call], s, none⟩
      | some r =>
        let note : Note :=
          { id := toString now, title := t.trim,
            subject := jsTrimOrEmpty req.subject,
            desc := jsTrimOrEmpty req.desc,
            type := jsOr req.type "note",
            fileName := f.originalname,
            fileUrl := r.secure_url, publicId := r.public_id,
            fileType := f.mimetype, fileSize := f.size, createdAt := now }
        let eff := Store.addNote note writeOk s
        ⟨201, [call], eff.state, some note⟩
  | _, _ => ⟨400, [], s, none⟩

/-- DELETE /api/data/:id of the second server: 404 when `findNote` misses;
otherwise the blob destroy is awaited with NO inner catch, so a destroy
failure reaches the outer catch (500) before `deleteNote` runs; on destroy
success the record is removed and the handler answers 200. -/
def deleteHandler (id : String) (destroyOk : Bool) (writeOk : Bool)
    (s : FileState) : DeleteOutcome :=
  match (Store.findNote id s).ret with
  | none => ⟨404, [], s⟩
  | some note =>
    let call := (note.publicId, destroyResourceType note.type)
    if destroyOk then ⟨200, [call], (Store.deleteNote id writeOk s).state⟩
    else ⟨500, [call], s⟩

end ServerV2

/-- A concrete stored record used by witnesses. -/
def noteA : Note :=
  { id := "101", title := "Algebra", subject := "math", desc := "basics",
    type := "note", fileName := "algebra.pdf", fileUrl := "https://blob/a",
    publicId := "pa", fileType := "application/pdf", fileSize := 10,
    createdAt := 100 }

/-- A second concrete record (newer, distinct id) used by witnesses. -/
def noteB : Note :=
  { id := "202", title := "Biology", subject := "bio", desc := "",
    type := "image", fileName := "cells.png", fileUrl := "https://blob/b",
    publicId := "pb", fileType := "image/png", fileSize := 20,
    createdAt := 200 }

/-- C1: for a valid record whose id is not already stored, `add(r)`
followed by `find(r.id)` (no intervening mutation, writes succeeding)
returns exactly `r`, in both store variants. -/
theorem addNote_findNote_roundtrip (r : Note) (ns : List Note)
    (h : ∀ n ∈ ns, n.id ≠ r.id) :
    (Store.findNote r.id (Store.addNote r true (FileState.valid ns)).state).ret
      = some r ∧
    (Part0.addNote r true (FileState.valid ns)).map
      (fun eff => (Part0.findNote r.id eff.state).ret) = Except.ok (some r) := by
  have h1 : ns.find? (fun n => decide (n.id = r.id)) = none :=
    List.find?_eq_none.mpr (fun x hx => by simpa using h x hx)
  constructor
  · simp [Store.findNote, Store.addNote, Store.readFile, Store.writeFile,
      List.find?_append, h1]
  · simp [Part0.addNote, Part0.findNote, Part0.getNotes, Except.map,
      List.find?_append, h1]

/-- Witness for C1 at a concrete record and store. -/
theorem addNote_findNote_roundtrip_witness :
    (∀ n ∈ [noteA], n.id ≠ noteB.id) ∧
    ((Store.findNote noteB.id
        (Store.addNote noteB true (FileState.valid [noteA])).state).ret
      = some noteB ∧
    (Part0.addNote noteB true (FileState.valid [noteA])).map
      (fun eff => (Part0.findNote noteB.id eff.state).ret)
      = Except.ok (some noteB)) :=
  ⟨by decide, addNote_findNote_roundtrip noteB [noteA] (by decide)⟩

/-- C2: in the primary store variant, `list()` returns exactly the stored
records (a permutation) ordered by `createdAt` descending: any record is
followed only by records with equal or smaller `createdAt`. -/
theorem getNotes_sorted_createdAt_desc (ns : List Note) :
    (Store.getNotes (FileState.valid ns)).ret.Perm ns ∧
    (Store.getNotes (FileState.valid ns)).ret.Pairwise
      (fun a b => b.createdAt ≤ a.createdAt) := by
  constructor
  · simpa [Store.getNotes, Store.readFile, Store.sortByCreatedAtDesc] using
      List.mergeSort_perm ns (fun a b => decide (b.createdAt ≤ a.createdAt))
  · have h := @List.sorted_mergeSort Note
      (fun a b : Note => decide (b.createdAt ≤ a.createdAt))
      (fun a b c hab hbc => by simp at hab hbc ⊢; omega)
      (fun a b => by simpa using Nat.le_total b.createdAt a.createdAt) ns
    simpa [Store.getNotes, Store.readFile, Store.sortByCreatedAtDesc] using
      h.imp (by simp)

/-- C6: removing an absent id leaves the persisted array unchanged and
raises no error: the primary variant for any write outcome (its write is
guarded), the part_000 variant with the write succeeding (its write is
unguarded). -/
theorem deleteNote_absent_noop (ns : List Note) (id : String) (writeOk : Bool)
    (h : ∀ n ∈ ns, n.id ≠ id) :
    (Store.deleteNote id writeOk (FileState.valid ns)).state
      = FileState.valid ns ∧
    Part0.deleteNote id true (FileState.valid ns)
      = Except.ok ⟨(), FileState.valid ns, [ns]⟩ := by
  have hf : ns.filter (fun n => decide (n.id ≠ id)) = ns :=
    List.filter_eq_self.mpr (fun a ha => by simpa using h a ha)
  constructor
  · cases writeOk <;>
      simp [Store.deleteNote, Store.readFile, Store.writeFile, hf] <;>
      exact fun a ha => h a ha
  · simp [Part0.deleteNote, Part0.getNotes, hf]
    exact fun a ha => h a ha

/-- Witness for C6 at a concrete store and absent id. -/
theorem deleteNote_absent_noop_witness :
    (∀ n ∈ [noteA, noteB], n.id ≠ "999") ∧
    ((Store.deleteNote "999" false (FileState.valid [noteA, noteB])).state
      = FileState.valid [noteA, noteB] ∧
    Part0.deleteNote "999" true (FileState.valid [noteA, noteB])
      = Except.ok ⟨(), FileState.valid [noteA, noteB], [[noteA, noteB]]⟩) :=
  ⟨by decide, deleteNote_absent_noop [noteA, noteB] "999" false (by decide)⟩

/-- C7: `list()` never fails outward — it is a total function in every
variant — and on every non-valid backing-file state (missing, unreadable,
unparseable) it returns the empty sequence. -/
theorem getNotes_empty_on_error (s : FileState)
    (h : ∀ ns, s ≠ FileState.valid ns) :
    (Store.getNotes s).ret = [] ∧ (Part0.getNotes s).ret = [] ∧
    ServerV1.getNotes s = [] := by
  cases s with
  | valid ns => exact absurd rfl (h ns)
  | missing =>
      simp [Store.getNotes, Store.readFile, Store.sortByCreatedAtDesc,
        Part0.getNotes, ServerV1.getNotes]
  | unreadable =>
      simp [Store.getNotes, Store.readFile, Store.sortByCreatedAtDesc,
        Part0.getNotes, ServerV1.getNotes]
  | unparseable =>
      simp [Store.getNotes, Store.readFile, Store.sortByCreatedAtDesc,
        Part0.getNotes, ServerV1.getNotes]

/-- Witness for C7 at the unparseable backing-file state. -/
theorem getNotes_empty_on_error_witness :
    (∀ ns, FileState.unparseable ≠ FileState.valid ns) ∧
    ((Store.getNotes FileState.unparseable).ret = [] ∧
    (Part0.getNotes FileState.unparseable).ret = [] ∧
    ServerV1.getNotes FileState.unparseable = []) :=
  ⟨fun ns => by simp, getNotes_empty_on_error FileState.unparseable
    (fun ns => by simp)⟩

/-- C8: bootstrapping against a missing backing file creates a file
holding the empty array, after which `list()` returns the empty sequence;
and the bootstrap is idempotent, safe to run on every start.  Both store
variants. -/
theorem bootstrap_missing_empty :
    Store.bootstrap FileState.missing = FileState.valid [] ∧
    (Store.getNotes (Store.bootstrap FileState.missing)).ret = [] ∧
    (∀ s, Store.bootstrap (Store.bootstrap s) = Store.bootstrap s) ∧
    Part0.bootstrap FileState.missing = FileState.valid [] ∧
    (Part0.getNotes (Part0.bootstrap FileState.missing)).ret = [] ∧
    (∀ s, Part0.bootstrap (Part0.bootstrap s) = Part0.bootstrap s) := by
  refine ⟨rfl, ?_, ?_, rfl, ?_, ?_⟩
  · simp [Store.bootstrap, Store.getNotes, Store.readFile,
      Store.sortByCreatedAtDesc]
  · intro s; cases s <;> rfl
  · simp [Part0.bootstrap, Part0.getNotes]
  · intro s; cases s <;> rfl

/-- C9: `list()` and `find(id)` are read-only: in both store variants they
leave the backing-file state unchanged and perform no write at all. -/
theorem getNotes_findNote_readonly (s : FileState) (id : String) :
    (Store.getNotes s).state = s ∧ (Store.getNotes s).writes = [] ∧
    (Store.findNote id s).state = s ∧ (Store.findNote id s).writes = [] ∧
    (Part0.getNotes s).state = s ∧ (Part0.getNotes s).writes = [] ∧
    (Part0.findNote id s).state = s ∧ (Part0.findNote id s).writes = [] := by
  cases s <;> exact ⟨rfl, rfl, rfl, rfl, rfl, rfl, rfl, rfl⟩

/-- C5: deleting an id absent from the store answers 404, issues no
blob-store destroy call and leaves the collection unchanged, in both
server variants. -/
theorem deleteHandler_absent_404 (ns : List Note) (id : String)
    (dOk wOk : Bool) (h : ∀ n ∈ ns, n.id ≠ id) :
    ServerV1.deleteHandler id dOk wOk (FileState.valid ns)
      = ⟨404, [], FileState.valid ns⟩ ∧
    ServerV2.deleteHandler id dOk wOk (FileState.valid ns)
      = ⟨404, [], FileState.valid ns⟩ := by
  have h1 : ns.find? (fun n => decide (n.id = id)) = none :=
    List.find?_eq_none.mpr (fun x hx => by simpa using h x hx)
  constructor
  · simp [ServerV1.deleteHandler, ServerV1.getNotes, h1]
  · simp [ServerV2.deleteHandler, Store.findNote, Store.readFile, h1]

/-- Witness for C5 at a concrete store and absent id. -/
theorem deleteHandler_absent_404_witness :
    (∀ n ∈ [noteA, noteB], n.id ≠ "999") ∧
    (ServerV1.deleteHandler "999" true true (FileState.valid [noteA, noteB])
      = ⟨404, [], FileState.valid [noteA, noteB]⟩ ∧
    ServerV2.deleteHandler "999" true true (FileState.valid [noteA, noteB])
      = ⟨404, [], FileState.valid [noteA, noteB]⟩) :=
  ⟨by decide, deleteHandler_absent_404 [noteA, noteB] "999" true true
    (by decide)⟩

/-- C4: when the record is present and the blob-store destroy call fails
(writes succeeding), the permissive first server still removes the record
and answers 200, while the stricter second server leaves the store
unchanged and answers 500. -/
theorem deleteHandler_destroy_failure_policy (ns : List Note) (id : String)
    (note : Note)
    (hfind : ns.find? (fun n => decide (n.id = id)) = some note)
    (hpub : note.publicId ≠ "") :
    (ServerV1.deleteHandler id false true (FileState.valid ns)).status = 200 ∧
    (ServerV1.deleteHandler id false true (FileState.valid ns)).state
      = FileState.valid (ns.filter (fun n => decide (n.id ≠ id))) ∧
    (ServerV1.deleteHandler id false true (FileState.valid ns)).destroyCalls
      = [(note.publicId, destroyResourceType note.type)] ∧
    (ServerV2.deleteHandler id false true (FileState.valid ns)).status = 500 ∧
    (ServerV2.deleteHandler id false true (FileState.valid ns)).state
      = FileState.valid ns := by
  refine ⟨?_, ?_, ?_, ?_, ?_⟩ <;>
    simp [ServerV1.deleteHandler, ServerV1.getNotes, ServerV2.deleteHandler,
      Store.findNote, Store.readFile, ServerV1.saveNotes, hfind, hpub]

/-- Witness for C4 at a concrete one-record store whose destroy fails. -/
theorem deleteHandler_destroy_failure_policy_witness :
    ([noteA].find? (fun n => decide (n.id = "101")) = some noteA ∧
      noteA.publicId ≠ "") ∧
    ((ServerV1.deleteHandler "101" false true (FileState.valid [noteA])).status
        = 200 ∧
    (ServerV1.deleteHandler "101" false true (FileState.valid [noteA])).state
      = FileState.valid ([noteA].filter (fun n => decide (n.id ≠ "101"))) ∧
    (ServerV1.deleteHandler "101" false true
        (FileState.valid [noteA])).destroyCalls
      = [(noteA.publicId, destroyResourceType noteA.type)] ∧
    (ServerV2.deleteHandler "101" false true (FileState.valid [noteA])).status
        = 500 ∧
    (ServerV2.deleteHandler "101" false true (FileState.valid [noteA])).state
      = FileState.valid [noteA]) :=
  ⟨⟨by decide, by decide⟩,
    deleteHandler_destroy_failure_policy [noteA] "101" noteA (by decide)
      (by decide)⟩

/-- An upload request whose title is a single space: it trims to the
empty string but is truthy, so `!title` does not reject it. -/
def blankTitleReq : UploadReq :=
  { file := some ⟨"syllabus.pdf", "application/pdf", 10⟩,
    title := some " ", subject := none, desc := none, type := none }

/-- C3 counterexample: a request whose title trims to the empty string is
NOT rejected: with the file part present and the blob upload succeeding,
both servers issue the blob-store upload call, add a record, and answer
201 rather than 400. -/
theorem upload_blank_title_not_rejected :
    blankTitleReq.title = some " " ∧ " ".data.all Char.isWhitespace = true ∧
    (ServerV1.uploadHandler blankTitleReq (some ⟨"https://blob/s", "ps"⟩) 7
        true (FileState.valid [])).status ≠ 400 ∧
    (ServerV1.uploadHandler blankTitleReq (some ⟨"https://blob/s", "ps"⟩) 7
        true (FileState.valid [])).uploadCalls ≠ [] ∧
    (ServerV1.uploadHandler blankTitleReq (some ⟨"https://blob/s", "ps"⟩) 7
        true (FileState.valid [])).state ≠ FileState.valid [] ∧
    (ServerV2.uploadHandler blankTitleReq (some ⟨"https://blob/s", "ps"⟩) 7
        true (FileState.valid [])).status ≠ 400 ∧
    (ServerV2.uploadHandler blankTitleReq (some ⟨"https://blob/s", "ps"⟩) 7
        true (FileState.valid [])).uploadCalls ≠ [] ∧
    (ServerV2.uploadHandler blankTitleReq (some ⟨"https://blob/s", "ps"⟩) 7
        true (FileState.valid [])).state ≠ FileState.valid [] := by
  refine ⟨rfl, by decide, ?_, ?_, ?_, ?_, ?_, ?_⟩ <;>
    simp [blankTitleReq, ServerV1.uploadHandler, ServerV2.uploadHandler,
      ServerV1.getNotes, ServerV1.saveNotes, Store.addNote, Store.readFile,
      Store.writeFile]

/-- C3 amended: a request missing the file part, or missing the title, or
whose title is the empty string, answers 400 with no blob-store upload
call and no store change, in both server variants. -/
theorem upload_missing_file_or_title_400 (req : UploadReq)
    (blob : Option BlobOk) (now : Nat) (writeOk : Bool) (s : FileState)
    (h : req.file = none ∨ req.title = none ∨ req.title = some "") :
    ServerV1.uploadHandler req blob now writeOk s = ⟨400, [], s, none⟩ ∧
    ServerV2.uploadHandler req blob now writeOk s = ⟨400, [], s, none⟩ := by
  rcases h with h | h | h
  · cases ht : req.title <;>
      simp [ServerV1.uploadHandler, ServerV2.uploadHandler, h, ht]
  · cases hf : req.file <;>
      simp [ServerV1.uploadHandler, ServerV2.uploadHandler, h, hf]
  · cases hf : req.file <;>
      simp [ServerV1.uploadHandler, ServerV2.uploadHandler, h, hf]

/-- An upload request with a file part but an empty title string. -/
def emptyTitleReq : UploadReq :=
  { file := some ⟨"a.pdf", "application/pdf", 3⟩, title := some "",
    subject := none, desc := none, type := none }

/-- Witness for the amended C3 at a concrete request with a file part but
an empty title string. -/
theorem upload_missing_file_or_title_400_witness :
    (emptyTitleReq.file = none ∨ emptyTitleReq.title = none ∨
      emptyTitleReq.title = some "") ∧
    (ServerV1.uploadHandler emptyTitleReq none 7 true (FileState.valid [noteA])
      = ⟨400, [], FileState.valid [noteA], none⟩ ∧
    ServerV2.uploadHandler emptyTitleReq none 7 true (FileState.valid [noteA])
      = ⟨400, [], FileState.valid [noteA], none⟩) :=
  ⟨Or.inr (Or.inr rfl),
    upload_missing_file_or_title_400 emptyTitleReq none 7 true
      (FileState.valid [noteA]) (Or.inr (Or.inr rfl))⟩

/-- The delete-side resource type of a record whose `type` field was
filled as `type || 'note'` equals the upload-side resource type computed
from the request `type` field. -/
theorem destroyRT_of_jsOr_note (t : Option String) :
    destroyResourceType (jsOr t "note") = uploadResourceType t := by
  cases t with
  | none => rfl
  | some s =>
    by_cases hs : s = "" <;> by_cases hi : s = "image" <;>
      simp_all [destroyResourceType, jsOr, uploadResourceType]

/-- Any record created by the first server's upload handler has its
`type` field equal to `type || 'note'`, and the one blob upload call was
issued with the request-derived resource type. -/
theorem uploadHandler_v1_created_note (req : UploadReq) (blob : Option BlobOk)
    (now : Nat) (writeOk : Bool) (s : FileState) (n : Note)
    (h : (ServerV1.uploadHandler req blob now writeOk s).body = some n) :
    n.type = jsOr req.type "note" ∧
    (ServerV1.uploadHandler req blob now writeOk s).uploadCalls.map
      BlobUploadCall.resource_type = [uploadResourceType req.type] := by
  cases hf : req.file with
  | none => simp [ServerV1.uploadHandler, hf] at h
  | some f =>
    cases ht : req.title with
    | none => simp [ServerV1.uploadHandler, hf, ht] at h
    | some t =>
      by_cases he : t = ""
      · simp [ServerV1.uploadHandler, hf, ht, he] at h
      · cases hb : blob with
        | none => simp [ServerV1.uploadHandler, hf, ht, he, hb] at h
        | some r =>
          simp [ServerV1.uploadHandler, hf, ht, he, hb] at h ⊢
          rw [← h]

/-- Any record created by the second server's upload handler has its
`type` field equal to `type || 'note'`, and the one blob upload call was
issued with the request-derived resource type. -/
theorem uploadHandler_v2_created_note (req : UploadReq) (blob : Option BlobOk)
    (now : Nat) (writeOk : Bool) (s : FileState) (n : Note)
    (h : (ServerV2.uploadHandler req blob now writeOk s).body = some n) :
    n.type = jsOr req.type "note" ∧
    (ServerV2.uploadHandler req blob now writeOk s).uploadCalls.map
      BlobUploadCall.resource_type = [uploadResourceType req.type] := by
  cases hf : req.file with
  | none => simp [ServerV2.uploadHandler, hf] at h
  | some f =>
    cases ht : req.title with
    | none => simp [ServerV2.uploadHandler, hf, ht] at h
    | some t =>
      by_cases he : t = ""
      · simp [ServerV2.uploadHandler, hf, ht, he] at h
      · cases hb : blob with
        | none => simp [ServerV2.uploadHandler, hf, ht, he, hb] at h
        | some r =>
          simp [ServerV2.uploadHandler, hf, ht, he, hb] at h ⊢
          rw [← h]

/-- C10: for every record created by an upload handler, the resource type
the delete handler passes to the blob-store destroy call equals the
resource type that was passed to the blob-store upload call when the
record was created, in both server variants. -/
theorem upload_delete_resource_type_consistent (req : UploadReq)
    (blob : Option BlobOk) (now : Nat) (writeOk : Bool) (s : FileState)
    (n1 n2 : Note) (dOk wOk2 : Bool)
    (h1 : (ServerV1.uploadHandler req blob now writeOk s).body = some n1)
    (h2 : (ServerV2.uploadHandler req blob now writeOk s).body = some n2)
    (hpub : n1.publicId ≠ "") :
    (ServerV1.uploadHandler req blob now writeOk s).uploadCalls.map
        BlobUploadCall.resource_type = [uploadResourceType req.type] ∧
    (ServerV2.uploadHandler req blob now writeOk s).uploadCalls.map
        BlobUploadCall.resource_type = [uploadResourceType req.type] ∧
    (ServerV1.deleteHandler n1.id dOk wOk2 (FileState.valid [n1])).destroyCalls
      = [(n1.publicId, uploadResourceType req.type)] ∧
    (ServerV2.deleteHandler n2.id dOk wOk2 (FileState.valid [n2])).destroyCalls
      = [(n2.publicId, uploadResourceType req.type)] := by
  obtain ⟨hty1, hc1⟩ :=
    uploadHandler_v1_created_note req blob now writeOk s n1 h1
  obtain ⟨hty2, hc2⟩ :=
    uploadHandler_v2_created_note req blob now writeOk s n2 h2
  refine ⟨hc1, hc2, ?_, ?_⟩
  · simp [ServerV1.deleteHandler, ServerV1.getNotes, hpub, hty1,
      destroyRT_of_jsOr_note]
  · cases dOk <;>
      simp [ServerV2.deleteHandler, Store.findNote, Store.readFile, hty2,
        destroyRT_of_jsOr_note]

/-- A concrete image-upload request used by the C10 witness. -/
def imageReq : UploadReq :=
  { file := some ⟨"cells.png", "image/png", 20⟩, title := some "Cells",
    subject := none, desc := none, type := some "image" }

/-- The record both upload handlers build for `imageReq` at time 7 when
the blob store answers url `https://blob/c` and public id `pc`. -/
def imageNote : Note :=
  { id := toString 7, title := "Cells".trim, subject := "", desc := "",
    type := "image", fileName := "cells.png", fileUrl := "https://blob/c",
    publicId := "pc", fileType := "image/png", fileSize := 20,
    createdAt := 7 }

/-- Witness for C10 at a concrete image upload in both variants. -/
theorem upload_delete_resource_type_consistent_witness :
    ((ServerV1.uploadHandler imageReq (some ⟨"https://blob/c", "pc"⟩) 7 true
        (FileState.valid [])).body = some imageNote ∧
     (ServerV2.uploadHandler imageReq (some ⟨"https://blob/c", "pc"⟩) 7 true
        (FileState.valid [])).body = some imageNote ∧
     imageNote.publicId ≠ "") ∧
    ((ServerV1.uploadHandler imageReq (some ⟨"https://blob/c", "pc"⟩) 7 true
        (FileState.valid [])).uploadCalls.map BlobUploadCall.resource_type
      = [uploadResourceType imageReq.type] ∧
     (ServerV2.uploadHandler imageReq (some ⟨"https://blob/c", "pc"⟩) 7 true
        (FileState.valid [])).uploadCalls.map BlobUploadCall.resource_type
      = [uploadResourceType imageReq.type] ∧
     (ServerV1.deleteHandler imageNote.id true true
        (FileState.valid [imageNote])).destroyCalls
      = [(imageNote.publicId, uploadResourceType imageReq.type)] ∧
     (ServerV2.deleteHandler imageNote.id true true
        (FileState.valid [imageNote])).destroyCalls
      = [(imageNote.publicId, uploadResourceType imageReq.type)]) :=
  ⟨⟨rfl, rfl, by decide⟩,
    upload_delete_resource_type_consistent imageReq
      (some ⟨"https://blob/c", "pc"⟩) 7 true (FileState.valid [])
      imageNote imageNote true true rfl rfl (by decide)⟩
